import Mathlib

/-!
A verification development for the PixelPilot automation scripts.

The definitions below are shallow embeddings of the Python functions of the
repository (multi_api_code_generator.py, step1_test_notion_extraction.py,
step2_test_v0_generation.py, dedalus_nextjs_generator.py,
automated_error_fixer.py, final_working_workflow.py,
main files/agent2_project_deployment.py).  Python strings are modelled as
Lean `String` where only equality and concatenation matter, and as
`List Char` where index arithmetic (find, slicing, regex-style matching)
matters.  Effectful calls to external services are modelled by passing the
outcome of each call as an explicit argument.
-/

namespace MultiApi

/-- The three external providers tried by `generate_code_multi_api`
(multi_api_code_generator.py), in their fixed order of preference. -/
inductive Provider
  | v0
  | claude
  | openai
deriving DecidableEq, Repr

/-- The body of the Python f-string built by `generate_fallback_project`
(multi_api_code_generator.py, lines 167-266).  Every `\x7b\x7b`/`\x7d\x7d` of the
f-string renders as a single literal brace and the f-string interpolates
nothing, so the rendered text is this constant. -/
def fallbackTemplate : String :=
  "\x60\x60\x60json file=\"package.json\"\n\x7b\n  \"name\": \"pixelpilot-project\",\n  \"version\": \"0.1.0\",\n  \"private\": true,\n  \"scripts\": \x7b\n    \"dev\": \"next dev\",\n    \"build\": \"next build\",\n    \"start\": \"next start\",\n    \"lint\": \"next lint\"\n  \x7d,\n  \"dependencies\": \x7b\n    \"next\": \"14.2.15\",\n    \"react\": \"^18.3.1\",\n    \"react-dom\": \"^18.3.1\"\n  \x7d,\n  \"devDependencies\": \x7b\n    \"@types/node\": \"^20\",\n    \"@types/react\": \"^18\",\n    \"@types/react-dom\": \"^18\",\n    \"eslint\": \"^8\",\n    \"eslint-config-next\": \"14.2.15\",\n    \"typescript\": \"^5\"\n  \x7d\n\x7d\n\x60\x60\x60\n\n\x60\x60\x60tsx file=\"app/layout.tsx\"\nimport type \x7b Metadata \x7d from \x27next\x27\n\nexport const metadata: Metadata = \x7b\n  title: \x27PixelPilot App\x27,\n  description: \x27Generated by PixelPilot\x27,\n\x7d\n\nexport default function RootLayout(\x7b\n  children,\n\x7d: \x7b\n  children: React.ReactNode\n\x7d) \x7b\n  return (\n    <html lang=\"en\">\n      <body>\x7bchildren\x7d</body>\n    </html>\n  )\n\x7d\n\x60\x60\x60\n\n\x60\x60\x60tsx file=\"app/page.tsx\"\nexport default function Home() \x7b\n  return (\n    <main className=\"min-h-screen p-8\">\n      <div className=\"max-w-md mx-auto bg-white rounded-lg shadow-md p-6\">\n        <h1 className=\"text-xl font-semibold mb-4\">John Doe</h1>\n        <p className=\"text-gray-600 mb-4\">Welcome to PixelPilot!</p>\n        <button className=\"bg-blue-500 text-white px-4 py-2 rounded hover:bg-blue-600\">\n          Like\n        </button>\n      </div>\n    </main>\n  )\n\x7d\n\x60\x60\x60\n\n\x60\x60\x60js file=\"next.config.js\"\n/** @type \x7bimport(\x27next\x27).NextConfig\x7d */\nconst nextConfig = \x7b\x7d\n\nmodule.exports = nextConfig\n\x60\x60\x60\n\n\x60\x60\x60json file=\"tsconfig.json\"\n\x7b\n  \"compilerOptions\": \x7b\n    \"target\": \"es5\",\n    \"lib\": [\"dom\", \"dom.iterable\", \"es6\"],\n    \"allowJs\": true,\n    \"skipLibCheck\": true,\n    \"strict\": true,\n    \"noEmit\": true,\n    \"esModuleInterop\": true,\n    \"module\": \"esnext\",\n    \"moduleResolution\": \"bundler\",\n    \"resolveJsonModule\": true,\n    \"isolatedModules\": true,\n    \"jsx\": \"preserve\",\n    \"incremental\": true,\n    \"plugins\": [\n      \x7b\n        \"name\": \"next\"\n      \x7d\n    ],\n    \"paths\": \x7b\n      \"@/*\": [\"./*\"]\n    \x7d\n  \x7d,\n  \"include\": [\"next-env.d.ts\", \"**/*.ts\", \"**/*.tsx\", \".next/types/**/*.ts\"],\n  \"exclude\": [\"node_modules\"]\n\x7d\n\x60\x60\x60"

/-- Embedding of `generate_fallback_project` (multi_api_code_generator.py,
lines 165-272).  The `try` body only builds a constant string, so the
`except` branch is unreachable and the function returns the template with
success `true` for every `specs`. -/
def generate_fallback_project (specs : String) : String × Bool :=
  (fallbackTemplate, true)

/-- The observable outcome of one run of `generate_code_multi_api`: the
returned `(content, tag)` pair together with the list of external providers
that were invoked, in invocation order. -/
structure MultiApiRun where
  content : String
  tag : String
  called : List Provider
deriving DecidableEq, Repr

/-- Embedding of `generate_code_multi_api` (multi_api_code_generator.py,
lines 274-315).  The three awaited provider calls are effectful, so the
`(content, success)` pair each call would return is passed as an argument
(`rv` for `generate_with_v0`, `rc` for `generate_with_claude`, `ro` for
`generate_with_openai`); the chain short-circuits at the first success and
otherwise falls through to `generate_fallback_project`.  `called` records
which providers were actually invoked. -/
def generate_code_multi_api (rv rc ro : String × Bool) (specs : String) :
    MultiApiRun :=
  if rv.2 then ⟨rv.1, "v0", [Provider.v0]⟩
  else if rc.2 then ⟨rc.1, "claude", [Provider.v0, Provider.claude]⟩
  else if ro.2 then
    ⟨ro.1, "openai", [Provider.v0, Provider.claude, Provider.openai]⟩
  else
    let fb := generate_fallback_project specs
    if fb.2 then
      ⟨fb.1, "fallback", [Provider.v0, Provider.claude, Provider.openai]⟩
    else ⟨"", "failed", [Provider.v0, Provider.claude, Provider.openai]⟩

end MultiApi

namespace MultiApi

/-- Claim C1: in every run of the multi-provider generator, if provider `i`
fails and provider `i+1` succeeds, the returned pair is provider `i+1`'s
content with its tag ("v0", "claude" or "openai"), never provider `i`'s;
and the providers are invoked strictly in the fixed order V0, Claude,
OpenAI (each provider is called only after every earlier one failed). -/
theorem C1_first_success_wins (rv rc ro : String × Bool) (specs : String) :
    (rv.2 = true →
      (generate_code_multi_api rv rc ro specs).content = rv.1 ∧
      (generate_code_multi_api rv rc ro specs).tag = "v0" ∧
      (generate_code_multi_api rv rc ro specs).called = [Provider.v0]) ∧
    (rv.2 = false → rc.2 = true →
      (generate_code_multi_api rv rc ro specs).content = rc.1 ∧
      (generate_code_multi_api rv rc ro specs).tag = "claude" ∧
      (generate_code_multi_api rv rc ro specs).called
        = [Provider.v0, Provider.claude]) ∧
    (rv.2 = false → rc.2 = false → ro.2 = true →
      (generate_code_multi_api rv rc ro specs).content = ro.1 ∧
      (generate_code_multi_api rv rc ro specs).tag = "openai" ∧
      (generate_code_multi_api rv rc ro specs).called
        = [Provider.v0, Provider.claude, Provider.openai]) := by
  refine ⟨fun hv => ?_, fun hv hc => ?_, fun hv hc ho => ?_⟩ <;>
    simp [generate_code_multi_api, hv] <;> simp [hc] <;> simp [ho]

/-- Concrete instantiation of `C1_first_success_wins`: V0 fails, Claude
succeeds, so the run returns Claude's content and tag after calling exactly
V0 then Claude. -/
theorem C1_first_success_wins_witness :
    (generate_code_multi_api ("v0 down", false) ("claude code", true)
        ("unused", false) "spec").content = "claude code" ∧
    (generate_code_multi_api ("v0 down", false) ("claude code", true)
        ("unused", false) "spec").tag = "claude" ∧
    (generate_code_multi_api ("v0 down", false) ("claude code", true)
        ("unused", false) "spec").called = [Provider.v0, Provider.claude] :=
  (C1_first_success_wins ("v0 down", false) ("claude code", true)
    ("unused", false) "spec").2.1 rfl rfl

/-- Claim C2: when all three configured providers fail, the generator still
returns the deterministic local template tagged "fallback", and that
content is not the empty string. -/
theorem C2_all_fail_fallback (rv rc ro : String × Bool) (specs : String)
    (hv : rv.2 = false) (hc : rc.2 = false) (ho : ro.2 = false) :
    (generate_code_multi_api rv rc ro specs).content
      = (generate_fallback_project specs).1 ∧
    (generate_code_multi_api rv rc ro specs).tag = "fallback" ∧
    (generate_code_multi_api rv rc ro specs).content ≠ "" := by
  refine ⟨?_, ?_, ?_⟩ <;>
    simp [generate_code_multi_api, hv, hc, ho, generate_fallback_project] <;>
    decide

/-- Concrete instantiation of `C2_all_fail_fallback`: all three providers
fail and the run returns the non-empty fallback template tagged
"fallback". -/
theorem C2_all_fail_fallback_witness :
    (generate_code_multi_api ("e1", false) ("e2", false) ("e3", false)
        "spec").content = (generate_fallback_project "spec").1 ∧
    (generate_code_multi_api ("e1", false) ("e2", false) ("e3", false)
        "spec").tag = "fallback" ∧
    (generate_code_multi_api ("e1", false) ("e2", false) ("e3", false)
        "spec").content ≠ "" :=
  C2_all_fail_fallback ("e1", false) ("e2", false) ("e3", false) "spec"
    rfl rfl rfl

/-- Claim C10: `generate_fallback_project` is a constant function of its
`specs` argument — its f-string interpolates nothing — and its success flag
is always `true`, so the fallback project never reflects the user's
specification. -/
theorem C10_fallback_constant (s1 s2 : String) :
    generate_fallback_project s1 = generate_fallback_project s2 ∧
    (generate_fallback_project s1).2 = true :=
  ⟨rfl, rfl⟩

end MultiApi

namespace PyStr

/-- Python strings modelled as explicit character lists (so that index
arithmetic, searching and slicing can be reasoned about directly). -/
abbrev PStr := List Char

/-- Coerce a Lean string literal into the `List Char` model. -/
def pys (s : String) : PStr := s.toList

/-- ASCII whitespace: the characters Python's `str.strip()` and the `re`
module's `\s` class accept (restricted to ASCII, the only characters
appearing in the texts handled by this repository). -/
def isPySpace (c : Char) : Bool :=
  c = ' ' || c = '\t' || c = '\n' || c = '\r' || c = '\x0b' || c = '\x0c'

/-- Python `str.strip()`: drop leading and trailing whitespace. -/
def pyStrip (s : PStr) : PStr :=
  ((s.dropWhile isPySpace).reverse.dropWhile isPySpace).reverse

/-- `pat` occurs in `hay` starting at index `i`. -/
def occursAt (hay pat : PStr) (i : Nat) : Bool :=
  pat.isPrefixOf (hay.drop i)

/-- Least index `≥ i` satisfying `p`, searching at most `fuel` indices. -/
def findFrom (p : Nat → Bool) : Nat → Nat → Option Nat
  | _, 0 => none
  | i, fuel + 1 => if p i then some i else findFrom p (i + 1) fuel

/-- Index of the first occurrence of `pat` in `hay` (Python `str.find`,
with absence reported as `none` instead of `-1`). -/
def findSub (hay pat : PStr) : Option Nat :=
  findFrom (occursAt hay pat) 0 (hay.length + 1)

/-- Python's `in` operator on strings: substring containment. -/
def containsSub (hay pat : PStr) : Bool :=
  (findSub hay pat).isSome

/-- Python slicing `s[a:b]` for nonnegative bounds (empty when `b ≤ a`,
clamped at the ends). -/
def slicePy (s : PStr) (a b : Nat) : PStr :=
  (s.drop a).take (b - a)

/-- ASCII lower-casing of one character (Python `str.lower` on ASCII). -/
def asciiLower (c : Char) : Char :=
  if 'A' ≤ c && c ≤ 'Z' then Char.ofNat (c.toNat + 32) else c

/-- Python `str.lower()` (ASCII). -/
def pyLower (s : PStr) : PStr := s.map asciiLower

/-- One step of Python `str.replace`: replace occurrences of `pat` (assumed
non-empty) by `rep`, scanning left to right, bounded by `fuel`. -/
def replaceAllAux (pat rep : PStr) : Nat → PStr → PStr
  | 0, s => s
  | fuel + 1, s =>
    if pat ≠ [] && pat.isPrefixOf s then
      rep ++ replaceAllAux pat rep fuel (s.drop pat.length)
    else
      match s with
      | [] => []
      | c :: rest => c :: replaceAllAux pat rep fuel rest

/-- Python `str.replace(pat, rep)` for non-empty `pat`. -/
def replaceAll (hay pat rep : PStr) : PStr :=
  replaceAllAux pat rep (hay.length + 1) hay

end PyStr

namespace Py

open PyStr

/-- JSON values as Python's `json` module materialises them (floats are not
modelled: no JSON text handled by the claims contains one, and the model's
parser reports them as unparseable). -/
inductive PyJson where
  | null
  | bool (b : Bool)
  | int (n : Int)
  | str (s : PStr)
  | arr (elems : List PyJson)
  | obj (entries : List (PStr × PyJson))

/-- Python `dict` lookup on an insertion-ordered association list. -/
def dictGet (d : List (PStr × PyJson)) (k : PStr) : Option PyJson :=
  match d with
  | [] => none
  | (k', v) :: rest => if k' = k then some v else dictGet rest k

/-- Python `k in d` for a dict. -/
def dictContains (d : List (PStr × PyJson)) (k : PStr) : Bool :=
  (dictGet d k).isSome

/-- Python `d[k] = v`: update in place (keeping the key's position) or
append a new key at the end, as Python dicts do. -/
def dictSet (d : List (PStr × PyJson)) (k : PStr) (v : PyJson) :
    List (PStr × PyJson) :=
  match d with
  | [] => [(k, v)]
  | (k', v') :: rest =>
    if k' = k then (k, v) :: rest else (k', v') :: dictSet rest k v

/-- Whitespace accepted between JSON tokens. -/
def jsonWs (c : Char) : Bool :=
  c = ' ' || c = '\t' || c = '\n' || c = '\r'

/-- Skip JSON inter-token whitespace. -/
def skipWs (s : PStr) : PStr := s.dropWhile jsonWs

/-- Parse the body of a JSON string (after the opening quote), returning the
decoded characters and the remainder after the closing quote.  The simple
escapes are decoded; `\u` escapes are not modelled (none occur in the texts
the claims are about) and make the parse fail. -/
def parseJsonString : Nat → PStr → Option (PStr × PStr)
  | 0, _ => none
  | fuel + 1, s =>
    match s with
    | [] => none
    | '"' :: rest => some ([], rest)
    | '\\' :: e :: rest =>
      let esc : Option Char :=
        match e with
        | '"' => some '"'
        | '\\' => some '\\'
        | '/' => some '/'
        | 'b' => some '\x08'
        | 'f' => some '\x0c'
        | 'n' => some '\n'
        | 'r' => some '\r'
        | 't' => some '\t'
        | _ => none
      match esc with
      | some c => (parseJsonString fuel rest).map (fun p => (c :: p.1, p.2))
      | none => none
    | c :: rest =>
      if c.toNat < 0x20 then none
      else (parseJsonString fuel rest).map (fun p => (c :: p.1, p.2))

/-- Decimal digits to a natural number. -/
def digitsToNat (ds : PStr) : Nat :=
  ds.foldl (fun acc c => acc * 10 + (c.toNat - '0'.toNat)) 0

/-- Parse a JSON integer (leading `-` allowed).  A following `.`, `e` or `E`
(a float) is not modelled and makes the parse fail. -/
def parseNumber (s : PStr) : Option (PyJson × PStr) :=
  let (neg, s1) := match s with
    | '-' :: rest => (true, rest)
    | _ => (false, s)
  let ds := s1.takeWhile (fun c => c.isDigit)
  let rest := s1.dropWhile (fun c => c.isDigit)
  if ds = [] then none
  else
    match rest with
    | '.' :: _ => none
    | 'e' :: _ => none
    | 'E' :: _ => none
    | _ =>
      let n : Int := Int.ofNat (digitsToNat ds)
      some (.int (if neg then -n else n), rest)

mutual

/-- Parse one JSON value (Python `json.loads` grammar, minus floats and
`\u` escapes), returning the value and the unconsumed remainder. -/
def parseValue : Nat → PStr → Option (PyJson × PStr)
  | 0, _ => none
  | fuel + 1, s0 =>
    let s := skipWs s0
    match s with
    | [] => none
    | '{' :: rest =>
      let r1 := skipWs rest
      match r1 with
      | '}' :: r2 => some (.obj [], r2)
      | _ => parseMembers fuel r1 []
    | '[' :: rest =>
      let r1 := skipWs rest
      match r1 with
      | ']' :: r2 => some (.arr [], r2)
      | _ => parseElems fuel r1 []
    | '"' :: rest =>
      (parseJsonString (rest.length + 1) rest).map (fun p => (.str p.1, p.2))
    | 't' :: rest =>
      if (pys "rue").isPrefixOf rest then some (.bool true, rest.drop 3)
      else none
    | 'f' :: rest =>
      if (pys "alse").isPrefixOf rest then some (.bool false, rest.drop 4)
      else none
    | 'n' :: rest =>
      if (pys "ull").isPrefixOf rest then some (.null, rest.drop 3)
      else none
    | _ => parseNumber s

/-- Parse the elements of a non-empty JSON array (after `[`). -/
def parseElems : Nat → PStr → List PyJson → Option (PyJson × PStr)
  | 0, _, _ => none
  | fuel + 1, s, acc =>
    match parseValue fuel s with
    | none => none
    | some (v, r) =>
      let r1 := skipWs r
      match r1 with
      | ',' :: r2 => parseElems fuel r2 (acc ++ [v])
      | ']' :: r2 => some (.arr (acc ++ [v]), r2)
      | _ => none

/-- Parse the members of a non-empty JSON object (after `{`); a repeated
key keeps the last value, as Python's `json.loads` does. -/
def parseMembers : Nat → PStr → List (PStr × PyJson) →
    Option (PyJson × PStr)
  | 0, _, _ => none
  | fuel + 1, s, acc =>
    match skipWs s with
    | '"' :: rest =>
      match parseJsonString (rest.length + 1) rest with
      | none => none
      | some (key, r) =>
        match skipWs r with
        | ':' :: r2 =>
          match parseValue fuel r2 with
          | none => none
          | some (v, r3) =>
            let r4 := skipWs r3
            match r4 with
            | ',' :: r5 => parseMembers fuel r5 (dictSet acc key v)
            | '}' :: r5 => some (.obj (dictSet acc key v), r5)
            | _ => none
        | _ => none
    | _ => none

end

/-- Python `json.loads`: parse a complete document, rejecting trailing
non-whitespace. -/
def pyJsonParse (s : PStr) : Option PyJson :=
  match parseValue (s.length + 1) s with
  | some (v, r) => if skipWs r = [] then some v else none
  | none => none

end Py

namespace PyStr

/-- If a bounded first-index search returns `j` then `j` satisfies the
predicate and is the least such index at or after the start. -/
theorem findFrom_spec (p : Nat → Bool) :
    ∀ (fuel i j : Nat), findFrom p i fuel = some j →
      p j = true ∧ i ≤ j ∧ ∀ k, i ≤ k → k < j → p k = false := by
  intro fuel
  induction fuel with
  | zero => intro i j h; simp [findFrom] at h
  | succ n ih =>
    intro i j h
    by_cases hpi : p i = true
    · simp [findFrom, hpi] at h
      subst h
      exact ⟨hpi, Nat.le_refl _, fun k hk hk' => absurd (Nat.lt_of_le_of_lt hk hk') (Nat.lt_irrefl _)⟩
    · simp [findFrom, hpi] at h
      obtain ⟨hj, hij, hmin⟩ := ih (i + 1) j h
      refine ⟨hj, Nat.le_trans (Nat.le_succ i) hij, fun k hk hk' => ?_⟩
      rcases Nat.eq_or_lt_of_le hk with rfl | hlt
      · exact Bool.eq_false_iff.mpr hpi
      · exact hmin k hlt hk'

/-- Completeness of the bounded first-index search: the least index
satisfying the predicate, if within the search range, is returned. -/
theorem findFrom_complete (p : Nat → Bool) :
    ∀ (fuel i j : Nat), i ≤ j → j < i + fuel → p j = true →
      (∀ k, i ≤ k → k < j → p k = false) → findFrom p i fuel = some j := by
  intro fuel
  induction fuel with
  | zero => intro i j hij hlt _ _; omega
  | succ n ih =>
    intro i j hij hlt hj hmin
    rcases Nat.eq_or_lt_of_le hij with rfl | hij'
    · simp [findFrom, hj]
    · have hpi : p i = false := hmin i (Nat.le_refl _) hij'
      simp [findFrom, hpi]
      exact ih (i + 1) j hij' (by omega) hj (fun k hk hk' => hmin k (by omega) hk')

/-- `findSub` returns the position of the first occurrence. -/
theorem findSub_complete (hay pat : PStr) (j : Nat)
    (hjl : j ≤ hay.length) (hj : occursAt hay pat j = true)
    (hmin : ∀ k, k < j → occursAt hay pat k = false) :
    findSub hay pat = some j :=
  findFrom_complete _ _ 0 j (Nat.zero_le _) (by omega) hj
    (fun k _ hk => hmin k hk)

/-- A pattern occurs at the boundary of an append when it heads the second
part. -/
theorem occursAt_append (a pat t : PStr) :
    occursAt (a ++ (pat ++ t)) pat a.length = true := by
  unfold occursAt
  rw [List.drop_left]
  exact List.isPrefixOf_iff_prefix.mpr (List.prefix_append pat t)

end PyStr

namespace Step1

open PyStr Py

/-- Embedding of the `<content>`-delimiter slicing of
`test_notion_extraction` (step1_test_notion_extraction.py, lines 44-48).
The Python guard tests `"<content>" in specs_text and "</content>" in
specs_text`, which holds exactly when both first-occurrence searches
succeed; the slice runs from the end of the first `<content>` (its start
index plus the tag length 9) to the start of the first `</content>`, and is
stripped. -/
def extractContentSlice (specs_text : PStr) : PStr :=
  match findSub specs_text (pys "<content>"),
        findSub specs_text (pys "</content>") with
  | some i, some j =>
    pyStrip (slicePy specs_text (i + (pys "<content>").length) j)
  | _, _ => specs_text

/-- Embedding of the spec-extraction of `test_notion_extraction`
(step1_test_notion_extraction.py, lines 35-48) as a function of the raw
extracted text.  The `<content>` slicing block sits inside the `try:`
after `json.loads(raw_text)`, so it runs only when the parse succeeded: a
JSON object uses `parsed.get("text", raw_text)` and that text is sliced;
on `JSONDecodeError` the `except` branch sets `specs_text = raw_text` and
no slicing happens.  A JSON value that is not an object makes
`parsed.get` raise `AttributeError`, and a non-string `"text"` value
makes the later `in` test raise `TypeError` — both escape the
`except json.JSONDecodeError:` handler and are caught by the outer
handler, which returns `None`. -/
def test_notion_extraction_spec_text (raw_text : PStr) : Option PStr :=
  match pyJsonParse raw_text with
  | none => some raw_text
  | some (.obj kvs) =>
    match dictGet kvs (pys "text") with
    | none => some (extractContentSlice raw_text)
    | some (.str t) => some (extractContentSlice t)
    | some _ => none
  | some _ => none

end Step1

namespace Step1

open PyStr Py

/-- The slicing block of `test_notion_extraction`
(step1_test_notion_extraction.py, lines 41-44) computes exactly `X`
trimmed when the exhibited `<content>X</content>` pair uses the first
occurrence of each delimiter. -/
theorem extractContentSlice_spec (p X q : PStr)
    (h1 : ∀ k, k < p.length → occursAt
      (p ++ pys "<content>" ++ X ++ pys "</content>" ++ q)
      (pys "<content>") k = false)
    (h2 : ∀ k, k < p.length + 9 + X.length → occursAt
      (p ++ pys "<content>" ++ X ++ pys "</content>" ++ q)
      (pys "</content>") k = false) :
    extractContentSlice (p ++ pys "<content>" ++ X ++ pys "</content>" ++ q)
      = pyStrip X := by
  have h9 : (pys "<content>").length = 9 := by decide
  have h10 : (pys "</content>").length = 10 := by decide
  have hslen : (p ++ pys "<content>" ++ X ++ pys "</content>" ++ q).length
      = p.length + 9 + X.length + 10 + q.length := by
    simp only [List.length_append, h9, h10]
  have hopen : findSub
      (p ++ pys "<content>" ++ X ++ pys "</content>" ++ q)
      (pys "<content>") = some p.length := by
    apply findSub_complete _ _ _ (by omega) _ h1
    have := occursAt_append p (pys "<content>") (X ++ (pys "</content>" ++ q))
    simpa [List.append_assoc] using this
  have hclose : findSub
      (p ++ pys "<content>" ++ X ++ pys "</content>" ++ q)
      (pys "</content>") = some (p.length + 9 + X.length) := by
    apply findSub_complete _ _ _ (by omega) _ h2
    have := occursAt_append (p ++ pys "<content>" ++ X) (pys "</content>") q
    have hlen : (p ++ pys "<content>" ++ X).length
        = p.length + 9 + X.length := by
      simp only [List.length_append, h9]
    rw [hlen] at this
    simpa [List.append_assoc] using this
  have hslice : slicePy
      (p ++ pys "<content>" ++ X ++ pys "</content>" ++ q)
      (p.length + 9) (p.length + 9 + X.length) = X := by
    unfold slicePy
    have hd : (p ++ pys "<content>" ++ X ++ pys "</content>" ++ q).drop
        (p.length + 9) = X ++ (pys "</content>" ++ q) := by
      have : p ++ pys "<content>" ++ X ++ pys "</content>" ++ q
          = (p ++ pys "<content>") ++ (X ++ (pys "</content>" ++ q)) := by
        simp [List.append_assoc]
      rw [this]
      have hlen : (p ++ pys "<content>").length = p.length + 9 := by
        simp only [List.length_append, h9]
      rw [← hlen]
      exact List.drop_left _ _
    rw [hd]
    have : p.length + 9 + X.length - (p.length + 9) = X.length := by omega
    rw [this]
    exact List.take_left X _
  simp only [extractContentSlice, hopen, hclose, h9, hslice]

/-- Claim C3 fails on the code: the `<content>` slicing sits inside the
`try:` and runs only after `json.loads` succeeds.  The payload
`"a<content>X</content>b"` contains the substring `<content>X</content>`
but does not parse as JSON, so the `except json.JSONDecodeError:` branch
returns the raw payload whole and unsliced — not `X`. -/
theorem C3_counterexample :
    containsSub (pys "a<content>X</content>b")
      (pys "<content>X</content>") = true ∧
    test_notion_extraction_spec_text (pys "a<content>X</content>b")
      = some (pys "a<content>X</content>b") ∧
    some (pys "a<content>X</content>b") ≠ some (pys "X") :=
  ⟨by decide, by decide, by decide⟩

/-- Claim C3 amended: the delimiter slicing runs only when the payload
parses as JSON, not regardless of it.  For a payload parsing as a JSON
object whose string `"text"` field exhibits `<content>X</content>` at the
first occurrence of each delimiter, the extractor returns exactly `X`
trimmed; a payload that does not parse as JSON is returned whole and
unsliced, even when it contains `<content>X</content>`. -/
theorem C3_amended (raw : PStr) (kvs : List (PStr × PyJson)) (p X q : PStr)
    (hraw : pyJsonParse raw = some (.obj kvs))
    (htext : dictGet kvs (pys "text")
      = some (.str (p ++ pys "<content>" ++ X ++ pys "</content>" ++ q)))
    (h1 : ∀ k, k < p.length → occursAt
      (p ++ pys "<content>" ++ X ++ pys "</content>" ++ q)
      (pys "<content>") k = false)
    (h2 : ∀ k, k < p.length + 9 + X.length → occursAt
      (p ++ pys "<content>" ++ X ++ pys "</content>" ++ q)
      (pys "</content>") k = false) :
    test_notion_extraction_spec_text raw = some (pyStrip X) ∧
    (∀ r, pyJsonParse r = none →
      test_notion_extraction_spec_text r = some r) := by
  constructor
  · simp only [test_notion_extraction_spec_text, hraw, htext]
    rw [extractContentSlice_spec p X q h1 h2]
  · intro r hr
    simp [test_notion_extraction_spec_text, hr]

/-- Concrete instantiation of `C3_amended`: the JSON payload
`\x7b"text": "a <content> X </content>b"\x7d` yields exactly `" X "`
trimmed, i.e. `"X"`; and every non-JSON payload is returned whole. -/
theorem C3_amended_witness :
    test_notion_extraction_spec_text
      (pys "\x7b\"text\": \"a <content> X </content>b\"\x7d")
      = some (pyStrip (pys " X ")) ∧
    (∀ r, pyJsonParse r = none →
      test_notion_extraction_spec_text r = some r) :=
  C3_amended (pys "\x7b\"text\": \"a <content> X </content>b\"\x7d")
    [(pys "text", .str (pys "a <content> X </content>b"))]
    (pys "a ") (pys " X ") (pys "b")
    (by rfl) (by rfl) (by decide) (by decide)

end Step1

namespace Step2

open PyStr

/-- The regex class `\w` (ASCII). -/
def isWordChar (c : Char) : Bool := c.isAlphanum || c = '_'

/-- Index of the last occurrence of `c` in a list. -/
def lastIdxOf (c : Char) : PStr → Option Nat
  | [] => none
  | x :: rest =>
    match lastIdxOf c rest with
    | some k => some (k + 1)
    | none => if x = c then some 0 else none

/-- Match a literal, returning the remainder. -/
def matchLit (l s : PStr) : Option PStr :=
  if l.isPrefixOf s then some (s.drop l.length) else none

/-- Match the regex fragment `\s*\n` under backtracking: the leading
whitespace run must contain a newline, and the greedy `\s*` makes the match
end just after the run's last newline. -/
def matchWsNl (s : PStr) : Option PStr :=
  match lastIdxOf '\n' (s.takeWhile isPySpace) with
  | some k => some (s.drop (k + 1))
  | none => none

/-- Lazy `(.*?)` (DOTALL) up to a literal: split at the first occurrence of
the literal, returning the text before it and the remainder after it. -/
def takeUntilSub (pat s : PStr) : Option (PStr × PStr) :=
  match findSub s pat with
  | some i => some (s.take i, s.drop (i + pat.length))
  | none => none

/-- Match pattern 1 of `save_generated_project`
(step2_test_v0_generation.py, line 155), the regex
 triple-backtick `(\w+)\s+file="([^"]+)"\s*\n(.*?)` triple-backtick
(DOTALL), anchored at the start of `s`.  Returns
`((lang, filename, content), rest)`. -/
def matchP1At (s : PStr) : Option ((PStr × PStr × PStr) × PStr) := do
  let r1 ← matchLit (pys "```") s
  let lang := r1.takeWhile isWordChar
  if lang = [] then failure
  let r2 := r1.drop lang.length
  let ws := r2.takeWhile isPySpace
  if ws = [] then failure
  let r3 ← matchLit (pys "file=\"") (r2.drop ws.length)
  let i ← findSub r3 (pys "\"")
  if i = 0 then failure
  let filename := r3.take i
  let r5 ← matchWsNl (r3.drop (i + 1))
  let (content, r6) ← takeUntilSub (pys "```") r5
  pure ((lang, filename, content), r6)

/-- Match pattern 2 of `save_generated_project`
(step2_test_v0_generation.py, line 164), the regex
`<[Ff]ile path="([^"]+)">\s*\n(.*?)</[Ff]ile>` (DOTALL), anchored at the
start of `s`. -/
def matchP2At (s : PStr) : Option ((PStr × PStr) × PStr) :=
  match s with
  | '<' :: c :: rest =>
    if c = 'F' || c = 'f' then do
      let r2 ← matchLit (pys "ile path=\"") rest
      let i ← findSub r2 (pys "\"")
      if i = 0 then failure
      let filename := r2.take i
      let r3 ← matchLit (pys ">") (r2.drop (i + 1))
      let r5 ← matchWsNl r3
      let j ← findFrom
        (fun k => occursAt r5 (pys "</File>") k || occursAt r5 (pys "</file>") k)
        0 (r5.length + 1)
      pure ((filename, r5.take j), r5.drop (j + 7))
    else none
  | _ => none

/-- Largest index satisfying `p`, searching downward from `k`. -/
def findRevFrom (p : Nat → Bool) : Nat → Option Nat
  | 0 => if p 0 then some 0 else none
  | k + 1 => if p (k + 1) then some (k + 1) else findRevFrom p k

/-- Continuation of pattern 3 after its filename group: the regex fragment
 `\s*\n` triple-backtick `[^\n]*\n(.*?)` triple-backtick under greedy
backtracking (the fence must start right after a newline of the whitespace
run, the latest such newline winning), returning `(content, rest)`. -/
def p3Cont (r : PStr) : Option (PStr × PStr) := do
  let w := r.takeWhile isPySpace
  if w = [] then failure
  let k ← findRevFrom
    (fun k => (w.get? k = some '\n') && (pys "```").isPrefixOf (r.drop (k + 1)))
    (w.length - 1)
  let r2 := r.drop (k + 1 + 3)
  let line := r2.takeWhile (fun c => c ≠ '\n')
  match r2.drop line.length with
  | '\n' :: r4 => do
    let (content, r5) ← takeUntilSub (pys "```") r4
    pure (content, r5)
  | _ => none

/-- The extension alternation of pattern 3, in the regex's order. -/
def p3Exts : List PStr :=
  [pys "json", pys "js", pys "tsx", pys "ts", pys "css", pys "md"]

/-- Try the extension alternatives of pattern 3 at dot position `d`. -/
def p3TryExts (r1 : PStr) (d : Nat) :
    List PStr → Option ((PStr × PStr × PStr) × PStr)
  | [] => none
  | ext :: rest =>
    if ext.isPrefixOf (r1.drop (d + 1)) then
      match p3Cont (r1.drop (d + 1 + ext.length)) with
      | some (content, r5) =>
        some ((r1.take (d + 1 + ext.length), ext, content), r5)
      | none => p3TryExts r1 d rest
    else p3TryExts r1 d rest

/-- Backtrack the dot position of pattern 3's filename group from the
right (the greedy `[^\n]+` tries the longest stem first); `d ≥ 1` because
the stem must be non-empty. -/
def p3Descend (r1 : PStr) : Nat → Option ((PStr × PStr × PStr) × PStr)
  | 0 => none
  | d + 1 =>
    match
      (if r1.get? (d + 1) = some '.' then
        p3TryExts r1 (d + 1) p3Exts
      else none) with
    | some res => some res
    | none => p3Descend r1 d

/-- Match pattern 3 of `save_generated_project`
(step2_test_v0_generation.py, line 173), the regex
`## ([^\n]+\.(json|js|tsx|ts|css|md))\s*\n` + fence + `[^\n]*\n(.*?)` +
fence (DOTALL), anchored at the start of `s`.  Returns
`((filename, ext, content), rest)`. -/
def matchP3At (s : PStr) : Option ((PStr × PStr × PStr) × PStr) := do
  let r1 ← matchLit (pys "## ") s
  let line1 := r1.takeWhile (fun c => c ≠ '\n')
  if line1.length = 0 then failure
  p3Descend r1 (line1.length - 1)

/-- Backtrack the `\w+` of pattern 4 from its longest run: after `L` word
characters, skip the maximal whitespace run and require the literal
`file="`; returns the remainder after that literal. -/
def p4TryLens (r1 : PStr) : Nat → Option PStr
  | 0 => none
  | L + 1 =>
    let afterW := r1.drop (L + 1)
    let ws := afterW.takeWhile isPySpace
    match matchLit (pys "file=\"") (afterW.drop ws.length) with
    | some r => some r
    | none => p4TryLens r1 L

/-- Match pattern 4 of `save_generated_project`
(step2_test_v0_generation.py, line 182), the regex
 triple-backtick `\w+\s*file="([^"]+)"\s*\n(.*?)` triple-backtick
(DOTALL), anchored at the start of `s`. -/
def matchP4At (s : PStr) : Option ((PStr × PStr) × PStr) := do
  let r1 ← matchLit (pys "```") s
  let w := r1.takeWhile isWordChar
  if w = [] then failure
  let r3 ← p4TryLens r1 w.length
  let i ← findSub r3 (pys "\"")
  if i = 0 then failure
  let filename := r3.take i
  let r5 ← matchWsNl (r3.drop (i + 1))
  let (content, r6) ← takeUntilSub (pys "```") r5
  pure ((filename, content), r6)

/-- `re.findall` scanning: try the anchored matcher at each position from
the left; on a match continue after it, otherwise advance one character. -/
def scanP {α : Type} (matchAt : PStr → Option (α × PStr)) :
    Nat → PStr → List α
  | 0, _ => []
  | fuel + 1, s =>
    match matchAt s with
    | some (a, r) => a :: scanP matchAt fuel r
    | none =>
      match s with
      | [] => []
      | _ :: rest => scanP matchAt fuel rest

/-- `re.findall(pattern1, generated_code, re.DOTALL)`. -/
def findallP1 (s : PStr) : List (PStr × PStr × PStr) :=
  scanP matchP1At (s.length + 1) s

/-- `re.findall(pattern2, generated_code, re.DOTALL)`. -/
def findallP2 (s : PStr) : List (PStr × PStr) :=
  scanP matchP2At (s.length + 1) s

/-- `re.findall(pattern3, generated_code, re.DOTALL)`. -/
def findallP3 (s : PStr) : List (PStr × PStr × PStr) :=
  scanP matchP3At (s.length + 1) s

/-- `re.findall(pattern4, generated_code, re.DOTALL)`. -/
def findallP4 (s : PStr) : List (PStr × PStr) :=
  scanP matchP4At (s.length + 1) s

/-- The project directory as a map from relative path to file content, in
creation order. -/
abbrev FileMap := List (PStr × PStr)

/-- Write one file: overwrite in place or append a new entry. -/
def setFile (fs : FileMap) (path content : PStr) : FileMap :=
  match fs with
  | [] => [(path, content)]
  | (p, c) :: rest =>
    if p = path then (path, content) :: rest
    else (p, c) :: setFile rest path content

/-- Read one file of the map. -/
def getFile (fs : FileMap) (path : PStr) : Option PStr :=
  match fs with
  | [] => none
  | (p, c) :: rest => if p = path then some c else getFile rest path

/-- Apply a list of `(path, content)` writes in order. -/
def applyWrites (ws : List (PStr × PStr)) (fs : FileMap) : FileMap :=
  ws.foldl (fun m w => setFile m w.1 w.2) fs

/-- The writes performed by the pattern-1 loop of `save_generated_project`
(step2_test_v0_generation.py, lines 159-162): one `save_file` with the
stripped content per match. -/
def writes1 (raw : PStr) : List (PStr × PStr) :=
  (findallP1 raw).map (fun t => (t.2.1, pyStrip t.2.2))

/-- The writes of the pattern-2 loop (lines 167-170). -/
def writes2 (raw : PStr) : List (PStr × PStr) :=
  (findallP2 raw).map (fun t => (t.1, pyStrip t.2))

/-- The writes of the pattern-3 loop (lines 176-179). -/
def writes3 (raw : PStr) : List (PStr × PStr) :=
  (findallP3 raw).map (fun t => (t.1, pyStrip t.2.2))

/-- The writes of the pattern-4 loop (lines 185-189): a match whose
filename equals some pattern-1 filename is skipped (`filename not in
[m[1] for m in matches1]`); no other duplicate check exists. -/
def writes4 (raw : PStr) : List (PStr × PStr) :=
  ((findallP4 raw).filter
    (fun t => t.1 ∉ (findallP1 raw).map (fun u => u.2.1))).map
    (fun t => (t.1, pyStrip t.2))

/-- The observable result of `save_generated_project`: the final project
directory, the `files_saved` counter, and the returned boolean. -/
structure SaveResult where
  files : FileMap
  files_saved : Nat
  ok : Bool

/-- Embedding of `save_generated_project` (step2_test_v0_generation.py,
lines 136-202): the directory is recreated empty, the four pattern
families are applied in order (each `save_file` writing the stripped
content under the matched relative path), `files_saved` counts every
write, and the function returns `files_saved > 0`. -/
def save_generated_project (generated_code : PStr) : SaveResult :=
  let w1 := writes1 generated_code
  let w2 := writes2 generated_code
  let w3 := writes3 generated_code
  let w4 := writes4 generated_code
  let n := w1.length + w2.length + w3.length + w4.length
  ⟨applyWrites w4 (applyWrites w3 (applyWrites w2 (applyWrites w1 []))),
   n, decide (0 < n)⟩

end Step2

namespace Step2

open PyStr

/-- POSIX `os.path.join(a, b)` for two components: an absolute `b`
discards `a` entirely; otherwise the parts are glued with `/` unless `a`
is empty or already ends in `/`. -/
def os_path_join (a b : PStr) : PStr :=
  if (pys "/").isPrefixOf b then b
  else if a = [] then b
  else if a.getLast? = some '/' then a ++ b
  else a ++ pys "/" ++ b

/-- The path `save_file` (step2_test_v0_generation.py, lines 204-215) and
`_save_file` (final_working_workflow.py, lines 231-237) write to: the
extracted relative path joined to the project root with no validation of
any kind. -/
def save_file_target (project_dir filepath : PStr) : PStr :=
  os_path_join project_dir filepath

/-- Split a path on `/` (Python `str.split('/')` semantics). -/
def splitOnSlash : PStr → List PStr
  | [] => [[]]
  | c :: rest =>
    let r := splitOnSlash rest
    if c = '/' then [] :: r
    else
      match r with
      | [] => [[c]]
      | h :: t => (c :: h) :: t

/-- POSIX path resolution over segments (no symlinks): `.` and empty
segments vanish, `..` pops the last accumulated segment. -/
def resolveSegs : List PStr → List PStr → List PStr
  | acc, [] => acc
  | acc, seg :: rest =>
    if seg = [] || seg = pys "." then resolveSegs acc rest
    else if seg = pys ".." then resolveSegs acc.dropLast rest
    else resolveSegs (acc ++ [seg]) rest

/-- The segments a relative path finally denotes. -/
def resolvedSegs (p : PStr) : List PStr :=
  resolveSegs [] (splitOnSlash p)

end Step2

namespace Dedalus

open PyStr Step2

/-- The extensions `_is_file_header` looks for
(dedalus_nextjs_generator.py, line 141). -/
def headerExts : List PStr :=
  [pys ".json", pys ".js", pys ".ts", pys ".tsx", pys ".css"]

/-- The file-header test of `parse_and_save_project`
(dedalus_nextjs_generator.py, line 141): the line starts with `##` or `**`
and its lower-cased text contains one of the extensions. -/
def is_file_header (line : PStr) : Bool :=
  ((pys "##").isPrefixOf line || (pys "**").isPrefixOf line) &&
    headerExts.any (fun e => containsSub (pyLower line) e)

/-- `extract_filename` (dedalus_nextjs_generator.py, lines 168-198):
strip the markdown markers, then map known name fragments to canonical
project paths, defaulting to `unknown.txt`. -/
def extract_filename (line : PStr) : PStr :=
  let l := pyStrip (replaceAll (replaceAll line (pys "##") []) (pys "**") [])
  let low := pyLower l
  if containsSub low (pys "package.json") then pys "package.json"
  else if containsSub low (pys "next.config") then pys "next.config.js"
  else if containsSub low (pys "tailwind.config") then pys "tailwind.config.js"
  else if containsSub low (pys "tsconfig") then pys "tsconfig.json"
  else if containsSub low (pys "layout.tsx") then pys "app/layout.tsx"
  else if containsSub low (pys "page.tsx") then pys "app/page.tsx"
  else if containsSub low (pys "globals.css") then pys "app/globals.css"
  else if containsSub l (pys "ProfileCard") then pys "components/ProfileCard.tsx"
  else if containsSub l (pys "Button") then pys "components/ui/Button.tsx"
  else if containsSub l (pys "Avatar") then pys "components/ui/Avatar.tsx"
  else if containsSub low (pys "utils") then pys "lib/utils.ts"
  else if containsSub low (pys "types") then pys "types/index.ts"
  else pys "unknown.txt"

/-- One iteration of the line loop of `parse_and_save_project`
(dedalus_nextjs_generator.py, lines 129-146).  State: the current file (if
any), the collected content lines, and the `save_file` calls made so far. -/
def lineStep (st : Option PStr × List PStr × List (PStr × PStr))
    (line : PStr) : Option PStr × List PStr × List (PStr × PStr) :=
  let (cf, cc, saves) := st
  if is_file_header line then
    let saves' :=
      match cf with
      | some f => if cc ≠ [] then saves ++ [(f, List.intercalate (pys "\n") cc)] else saves
      | none => saves
    (some (extract_filename line), [], saves')
  else if (pys "```").isPrefixOf line && cf.isSome then
    (cf, cc, saves)
  else if cf.isSome && !(pys "```").isPrefixOf line then
    (cf, cc ++ [line], saves)
  else (cf, cc, saves)

/-- The ordered `save_file` calls the line loop of
`parse_and_save_project` performs on a response (including the final
flush of lines 148-151). -/
def dedalusParseFiles (dedalus_response : PStr) : List (PStr × PStr) :=
  let st := (dedalus_response.splitOn '\n').foldl lineStep (none, [], [])
  match st.1 with
  | some f =>
    if st.2.1 ≠ [] then st.2.2 ++ [(f, List.intercalate (pys "\n") st.2.1)]
    else st.2.2
  | none => st.2.2

/-- The `package.json` text `create_basic_structure`
(dedalus_nextjs_generator.py, lines 214-255) writes: `json.dump` of its
hard-coded dict with `indent=2`. -/
def basicPackageJsonText : PStr :=
  pys "\x7b\n  \"name\": \"pixelpilot-nextjs\",\n  \"version\": \"0.1.0\",\n  \"private\": true,\n  \"scripts\": \x7b\n    \"dev\": \"next dev\",\n    \"build\": \"next build\",\n    \"start\": \"next start\",\n    \"lint\": \"next lint\"\n  \x7d,\n  \"dependencies\": \x7b\n    \"next\": \"14.0.0\",\n    \"react\": \"^18\",\n    \"react-dom\": \"^18\",\n    \"tailwindcss\": \"^3.3.0\"\n  \x7d,\n  \"devDependencies\": \x7b\n    \"typescript\": \"^5\",\n    \"@types/node\": \"^20\",\n    \"@types/react\": \"^18\",\n    \"@types/react-dom\": \"^18\",\n    \"autoprefixer\": \"^10.0.1\",\n    \"postcss\": \"^8\",\n    \"eslint\": \"^8\",\n    \"eslint-config-next\": \"14.0.0\"\n  \x7d\n\x7d"

/-- Embedding of `parse_and_save_project` (dedalus_nextjs_generator.py,
lines 113-166): the project directory is recreated empty, the parsed
files are saved (contents stripped by `save_file`), and when zero files
were saved `create_basic_structure` writes the full response dump and the
hard-coded `package.json`; the function returns `True`. -/
def parse_and_save_project (dedalus_response : PStr) : FileMap × Bool :=
  let saves := dedalusParseFiles dedalus_response
  let fs := saves.foldl (fun acc s => setFile acc s.1 (pyStrip s.2)) []
  if saves.length = 0 then
    ([(pys "dedalus_response.txt", dedalus_response),
      (pys "package.json", basicPackageJsonText)], true)
  else (fs, true)

end Dedalus

namespace Step2

open PyStr Dedalus

/-- Writing under one path leaves reads of a different path unchanged. -/
theorem getFile_setFile_ne (fs : FileMap) (p c : PStr) (name : PStr)
    (h : p ≠ name) : getFile (setFile fs p c) name = getFile fs name := by
  induction fs with
  | nil => simp [setFile, getFile, h]
  | cons hd tl ih =>
    by_cases hp : hd.1 = p
    · simp [setFile, hp, getFile, h]
    · simp only [setFile, getFile]
      rw [if_neg hp]
      by_cases hn : hd.1 = name
      · simp [getFile, hn]
      · simp [getFile, hn, ih]

/-- A batch of writes that never touches `name` leaves reads of `name`
unchanged. -/
theorem getFile_applyWrites_ne (ws : List (PStr × PStr)) (fs : FileMap)
    (name : PStr) (h : ∀ w ∈ ws, w.1 ≠ name) :
    getFile (applyWrites ws fs) name = getFile fs name := by
  induction ws generalizing fs with
  | nil => rfl
  | cons w rest ih =>
    show getFile (applyWrites rest (setFile fs w.1 w.2)) name = getFile fs name
    rw [ih _ (fun x hx => h x (List.mem_cons_of_mem w hx)),
      getFile_setFile_ne _ _ _ _ (h w (List.mem_cons_self w rest))]

/-- Claim C5 fails on the code: in the raw text below, pattern family 1
(the earliest) matches `a.json` with content `AAA`, family 2 matches the
same path with content `BBB`, and the final on-disk content is family 2's
`BBB` — the later family overwrote the earlier write instead of being
skipped — while `files_saved` counts the path twice. -/
theorem C5_counterexample :
    (findallP1 (pys "```json file=\"a.json\"\nAAA\n```\n<file path=\"a.json\">\nBBB\n</file>")).map (fun t => t.2.1) = [pys "a.json"] ∧
    (findallP2 (pys "```json file=\"a.json\"\nAAA\n```\n<file path=\"a.json\">\nBBB\n</file>")).map (fun t => t.1) = [pys "a.json"] ∧
    getFile (save_generated_project (pys "```json file=\"a.json\"\nAAA\n```\n<file path=\"a.json\">\nBBB\n</file>")).files (pys "a.json") = some (pys "BBB") ∧
    some (pys "BBB") ≠ some (pys "AAA") ∧
    (save_generated_project (pys "```json file=\"a.json\"\nAAA\n```\n<file path=\"a.json\">\nBBB\n</file>")).files_saved = 2 := by
  refine ⟨by decide, by decide, by decide, by decide, by decide⟩

/-- Claim C5 amended: only pattern family 4 deduplicates, and only against
family 1's paths.  For a path matched by family 1 and by no match of
families 2 and 3, every family-4 match for it is skipped and the final
content is exactly what the family-1 pass wrote; a path also matched by
family 2 or 3 is instead overwritten by the later family (last write
wins), and every performed write is counted in `files_saved`. -/
theorem C5_amended (raw name : PStr)
    (h1 : name ∈ (findallP1 raw).map (fun t => t.2.1))
    (h2 : name ∉ (findallP2 raw).map (fun t => t.1))
    (h3 : name ∉ (findallP3 raw).map (fun t => t.1)) :
    getFile (save_generated_project raw).files name
      = getFile (applyWrites (writes1 raw) []) name := by
  have hw2 : ∀ w ∈ writes2 raw, w.1 ≠ name := by
    intro w hw heq
    simp only [writes2] at hw
    obtain ⟨t, ht, rfl⟩ := List.mem_map.mp hw
    exact h2 (List.mem_map.mpr ⟨t, ht, heq⟩)
  have hw3 : ∀ w ∈ writes3 raw, w.1 ≠ name := by
    intro w hw heq
    simp only [writes3] at hw
    obtain ⟨t, ht, rfl⟩ := List.mem_map.mp hw
    exact h3 (List.mem_map.mpr ⟨t, ht, heq⟩)
  have hw4 : ∀ w ∈ writes4 raw, w.1 ≠ name := by
    intro w hw heq
    simp only [writes4] at hw
    obtain ⟨t, htf, rfl⟩ := List.mem_map.mp hw
    have hmem := (List.mem_filter.mp htf).2
    rw [decide_eq_true_eq] at hmem
    exact hmem (by rw [show t.1 = name from heq]; exact h1)
  have hfiles : (save_generated_project raw).files
      = applyWrites (writes4 raw) (applyWrites (writes3 raw)
          (applyWrites (writes2 raw) (applyWrites (writes1 raw) []))) := rfl
  rw [hfiles, getFile_applyWrites_ne _ _ _ hw4,
    getFile_applyWrites_ne _ _ _ hw3, getFile_applyWrites_ne _ _ _ hw2]

/-- Concrete instantiation of `C5_amended`: a raw text with one family-1
block (which family 4 also matches) ends up with exactly the family-1
content for that path. -/
theorem C5_amended_witness :
    getFile (save_generated_project (pys "```json file=\"a.json\"\nAAA\n```")).files (pys "a.json")
      = getFile (applyWrites (writes1 (pys "```json file=\"a.json\"\nAAA\n```")) []) (pys "a.json") :=
  C5_amended (pys "```json file=\"a.json\"\nAAA\n```") (pys "a.json")
    (by decide) (by decide) (by decide)

/-- Claim C4 fails on the code: on a raw text with zero pattern matches,
`save_generated_project` leaves the freshly recreated project directory
empty and returns `False` — no skeleton is written. -/
theorem C4_counterexample :
    (save_generated_project (pys "just prose, no code")).files = [] ∧
    (save_generated_project (pys "just prose, no code")).ok = false := by
  refine ⟨by decide, by decide⟩

/-- Claim C4 amended: on zero matches, the cited writer
`save_generated_project` produces an empty directory and returns `False`;
a skeleton fallback exists only in `parse_and_save_project`
(dedalus_nextjs_generator.py), whose `create_basic_structure` writes the
raw-response dump and a hard-coded `package.json` manifest — not an entry
page or config files. -/
theorem C4_amended (raw resp : PStr)
    (h1 : findallP1 raw = []) (h2 : findallP2 raw = [])
    (h3 : findallP3 raw = []) (h4 : findallP4 raw = [])
    (h5 : dedalusParseFiles resp = []) :
    (save_generated_project raw).files = [] ∧
    (save_generated_project raw).ok = false ∧
    parse_and_save_project resp
      = ([(pys "dedalus_response.txt", resp),
          (pys "package.json", basicPackageJsonText)], true) := by
  refine ⟨?_, ?_, ?_⟩
  · show applyWrites (writes4 raw) (applyWrites (writes3 raw)
      (applyWrites (writes2 raw) (applyWrites (writes1 raw) []))) = []
    simp [writes1, writes2, writes3, writes4, h1, h2, h3, h4, applyWrites]
  · show decide (0 < (writes1 raw).length + (writes2 raw).length
      + (writes3 raw).length + (writes4 raw).length) = false
    simp [writes1, writes2, writes3, writes4, h1, h2, h3, h4]
  · unfold parse_and_save_project
    rw [h5]
    rfl

/-- Concrete instantiation of `C4_amended` at the raw text
`"just prose, no code"`. -/
theorem C4_amended_witness :
    (save_generated_project (pys "just prose, no code")).files = [] ∧
    (save_generated_project (pys "just prose, no code")).ok = false ∧
    parse_and_save_project (pys "just prose, no code")
      = ([(pys "dedalus_response.txt", pys "just prose, no code"),
          (pys "package.json", basicPackageJsonText)], true) :=
  C4_amended (pys "just prose, no code") (pys "just prose, no code")
    (by decide) (by decide) (by decide) (by decide) (by decide)

end Step2

namespace Step2

open PyStr

/-- Unfolding equation for `splitOnSlash` on a cons cell. -/
theorem splitOnSlash_cons (c : Char) (rest : PStr) :
    splitOnSlash (c :: rest) =
      if c = '/' then [] :: splitOnSlash rest
      else
        match splitOnSlash rest with
        | [] => [[c]]
        | h :: t => (c :: h) :: t := rfl

/-- Unfolding equation for `resolveSegs` on a cons cell. -/
theorem resolveSegs_cons (acc : List PStr) (seg : PStr) (rest : List PStr) :
    resolveSegs acc (seg :: rest) =
      if seg = [] || seg = pys "." then resolveSegs acc rest
      else if seg = pys ".." then resolveSegs acc.dropLast rest
      else resolveSegs (acc ++ [seg]) rest := rfl

/-- A path without a slash is a single segment. -/
theorem splitOnSlash_no_slash (a : PStr) (h : '/' ∉ a) :
    splitOnSlash a = [a] := by
  induction a with
  | nil => rfl
  | cons c rest ih =>
    have hc : c ≠ '/' := fun hcc => h (hcc ▸ List.mem_cons_self c rest)
    have hr : '/' ∉ rest := fun hm => h (List.mem_cons_of_mem c hm)
    rw [splitOnSlash_cons, if_neg hc, ih hr]

/-- Splitting a slash-glued path whose first part has no slash yields that
part followed by the split of the rest. -/
theorem splitOnSlash_append (a b : PStr) (h : '/' ∉ a) :
    splitOnSlash (a ++ '/' :: b) = a :: splitOnSlash b := by
  induction a with
  | nil => simp [splitOnSlash]
  | cons c rest ih =>
    have hc : c ≠ '/' := fun hcc => h (hcc ▸ List.mem_cons_self c rest)
    have hr : '/' ∉ rest := fun hm => h (List.mem_cons_of_mem c hm)
    have hx : (c :: rest) ++ '/' :: b = c :: (rest ++ '/' :: b) := rfl
    rw [hx, splitOnSlash_cons, if_neg hc, ih hr]

/-- Resolving segments that contain no `..` never pops the accumulator:
the result extends it. -/
theorem resolveSegs_no_dotdot (segs : List PStr) :
    ∀ acc : List PStr, pys ".." ∉ segs →
      ∃ t, resolveSegs acc segs = acc ++ t := by
  induction segs with
  | nil => intro acc _; exact ⟨[], (List.append_nil acc).symm⟩
  | cons seg rest ih =>
    intro acc h
    have hseg : seg ≠ pys ".." := fun hs => h (hs ▸ List.mem_cons_self seg rest)
    have hrest : pys ".." ∉ rest := fun hm => h (List.mem_cons_of_mem seg hm)
    by_cases hskip : seg = [] ∨ seg = pys "."
    · have hstep : resolveSegs acc (seg :: rest) = resolveSegs acc rest := by
        rw [resolveSegs_cons]
        rcases hskip with hs | hs
        · simp [hs]
        · simp [hs]
      rw [hstep]
      exact ih acc hrest
    · push_neg at hskip
      have hstep : resolveSegs acc (seg :: rest)
          = resolveSegs (acc ++ [seg]) rest := by
        rw [resolveSegs_cons]
        simp [hskip.1, hskip.2, hseg]
      rw [hstep]
      obtain ⟨t, ht⟩ := ih (acc ++ [seg]) hrest
      exact ⟨seg :: t, by rw [ht]; simp⟩

/-- Claim C6 fails on the code: the file saver performs no path
validation.  The raw text below has a block whose path is `../evil.txt`;
the parser extracts it, `save_generated_project` writes it, and the path
`save_file` opens — `os.path.join` of the project root with the extracted
path — resolves to `evil.txt` outside the project root `proj`. -/
theorem C6_counterexample :
    (findallP1 (pys "```tsx file=\"../evil.txt\"\nEVIL\n```")).map
      (fun t => t.2.1) = [pys "../evil.txt"] ∧
    getFile (save_generated_project
      (pys "```tsx file=\"../evil.txt\"\nEVIL\n```")).files
      (pys "../evil.txt") = some (pys "EVIL") ∧
    resolvedSegs (save_file_target (pys "proj") (pys "../evil.txt"))
      = [pys "evil.txt"] ∧
    (resolvedSegs (save_file_target (pys "proj") (pys "../evil.txt"))).head?
      ≠ some (pys "proj") := by
  refine ⟨by decide, by decide, by decide, by decide⟩

/-- Claim C6 amended: the saver rejects nothing — every extracted block is
written at `os.path.join(project_dir, path)` verbatim.  Containment under
the project root holds only for the benign paths: a relative path with no
`..` segment resolves to a path below the root, while an absolute path
makes `os.path.join` discard the root entirely (and `..` segments escape
it, as the counterexample shows). -/
theorem C6_amended (root p : PStr) (h1 : root ≠ []) (h2 : '/' ∉ root)
    (h3 : root ≠ pys ".") (h4 : root ≠ pys "..")
    (h5 : ¬ (pys "/").isPrefixOf p = true)
    (h6 : pys ".." ∉ splitOnSlash p) :
    (∃ t, resolvedSegs (save_file_target root p) = root :: t) ∧
    (∀ b, (pys "/").isPrefixOf b = true → save_file_target root b = b) := by
  constructor
  · have hlast : root.getLast? ≠ some '/' := by
      intro hl
      obtain ⟨hne, heq⟩ := List.mem_getLast?_eq_getLast hl
      exact h2 (heq ▸ List.getLast_mem hne)
    have hjoin : save_file_target root p = root ++ '/' :: p := by
      unfold save_file_target os_path_join
      rw [if_neg h5, if_neg h1, if_neg hlast,
        show (pys "/") = ['/'] from rfl, List.append_assoc]
      rfl
    rw [hjoin]
    unfold resolvedSegs
    rw [splitOnSlash_append root p h2]
    have hstep : resolveSegs [] (root :: splitOnSlash p)
        = resolveSegs [root] (splitOnSlash p) := by
      rw [resolveSegs_cons]
      simp [h1, h3, h4]
    rw [hstep]
    obtain ⟨t, ht⟩ := resolveSegs_no_dotdot (splitOnSlash p) [root] h6
    exact ⟨t, by rw [ht]; rfl⟩
  · intro b hb
    unfold save_file_target os_path_join
    rw [if_pos hb]

/-- Concrete instantiation of `C6_amended`: the benign relative path
`app/page.tsx` under root `proj` stays below the root. -/
theorem C6_amended_witness :
    (∃ t, resolvedSegs (save_file_target (pys "proj") (pys "app/page.tsx"))
      = pys "proj" :: t) ∧
    (∀ b, (pys "/").isPrefixOf b = true →
      save_file_target (pys "proj") b = b) :=
  C6_amended (pys "proj") (pys "app/page.tsx") (by decide) (by decide)
    (by decide) (by decide) (by decide) (by decide)

end Step2

namespace Fixer

open PyStr Py Step2

/-- The exceptions the fixer's file handling can raise. -/
inductive PyErr
  | jsonDecode
  | typeError
deriving DecidableEq, Repr

/-- One hex digit (lower case). -/
def hexDigit (n : Nat) : Char :=
  if n < 10 then Char.ofNat ('0'.toNat + n) else Char.ofNat ('a'.toNat + n - 10)

/-- Four hex digits, as `json.dumps` `\u` escapes use. -/
def hex4 (n : Nat) : PStr :=
  [hexDigit (n / 4096 % 16), hexDigit (n / 256 % 16),
   hexDigit (n / 16 % 16), hexDigit (n % 16)]

/-- Escape one character as Python `json.dumps` (default `ensure_ascii`)
does; astral characters (surrogate pairs) are not modelled. -/
def escChar (c : Char) : PStr :=
  if c = '"' then pys "\\\""
  else if c = '\\' then pys "\\\\"
  else if c = '\n' then pys "\\n"
  else if c = '\t' then pys "\\t"
  else if c = '\r' then pys "\\r"
  else if c = '\x08' then pys "\\b"
  else if c = '\x0c' then pys "\\f"
  else if c.toNat < 0x20 || c.toNat > 0x7e then pys "\\u" ++ hex4 c.toNat
  else [c]

/-- Serialize a JSON string literal. -/
def dumpStr (s : PStr) : PStr :=
  '"' :: s.foldr (fun c acc => escChar c ++ acc) ['"']

/-- `indent * level` spaces. -/
def indentStr (n : Nat) : PStr := List.replicate n ' '

mutual

/-- `json.dump(v, f, indent=2)` at a nesting level. -/
def jsonDump (level : Nat) : PyJson → PStr
  | .null => pys "null"
  | .bool true => pys "true"
  | .bool false => pys "false"
  | .int n => pys (toString n)
  | .str s => dumpStr s
  | .arr [] => pys "[]"
  | .arr (x :: xs) =>
    pys "[\n" ++ dumpElems level (x :: xs) ++ pys "\n"
      ++ indentStr (2 * level) ++ pys "]"
  | .obj [] => pys "\x7b\x7d"
  | .obj (e :: es) =>
    pys "\x7b\n" ++ dumpEntries level (e :: es) ++ pys "\n"
      ++ indentStr (2 * level) ++ pys "\x7d"

/-- Array elements, comma-newline separated, each indented. -/
def dumpElems (level : Nat) : List PyJson → PStr
  | [] => []
  | [x] => indentStr (2 * (level + 1)) ++ jsonDump (level + 1) x
  | x :: y :: xs =>
    indentStr (2 * (level + 1)) ++ jsonDump (level + 1) x ++ pys ",\n"
      ++ dumpElems level (y :: xs)

/-- Object entries, comma-newline separated, `": "` key separator. -/
def dumpEntries (level : Nat) : List (PStr × PyJson) → PStr
  | [] => []
  | [e] =>
    indentStr (2 * (level + 1)) ++ dumpStr e.1 ++ pys ": "
      ++ jsonDump (level + 1) e.2
  | e :: f :: es =>
    indentStr (2 * (level + 1)) ++ dumpStr e.1 ++ pys ": "
      ++ jsonDump (level + 1) e.2 ++ pys ",\n" ++ dumpEntries level (f :: es)

end

/-- `json.dump(package_data, f, indent=2)` as the fixer writes it. -/
def pyJsonDumpIndent2 (v : PyJson) : PStr := jsonDump 0 v

/-- The `required_deps` table of `fix_package_json_issues`
(automated_error_fixer.py, lines 151-155). -/
def required_deps : List (PStr × PStr) :=
  [(pys "next", pys "^14.0.0"),
   (pys "react", pys "^18.0.0"),
   (pys "react-dom", pys "^18.0.0")]

/-- The `required_dev_deps` table (lines 158-166). -/
def required_dev_deps : List (PStr × PStr) :=
  [(pys "tailwindcss", pys "^3.4.0"),
   (pys "postcss", pys "^8.4.31"),
   (pys "autoprefixer", pys "^10.4.16"),
   (pys "@types/node", pys "^20.11.0"),
   (pys "@types/react", pys "^18.2.47"),
   (pys "@types/react-dom", pys "^18.2.18"),
   (pys "typescript", pys "^5.3.3")]

/-- One of the two ensure-loops of `fix_package_json_issues` (lines
174-182): add each required entry that is missing, threading the `changed`
flag. -/
def ensureDeps : List (PStr × PStr) →
    List (PStr × PyJson) × Bool → List (PStr × PyJson) × Bool
  | [], acc => acc
  | kv :: rest, acc =>
    if dictContains acc.1 kv.1 then ensureDeps rest acc
    else ensureDeps rest (dictSet acc.1 kv.1 (.str kv.2), true)

/-- The dict-level core of `fix_package_json_issues`
(automated_error_fixer.py, lines 138-188): ensure the `dependencies` and
`devDependencies` keys exist, then add every missing required entry,
reporting whether anything changed.  A `dependencies`/`devDependencies`
value that is not an object makes Python's `in`/item-assignment go wrong
(`TypeError` in the assignment path); the model reports `TypeError` for
every non-object value, not chasing the corner where a string value
happens to contain every required name as a substring. -/
def fix_package_json_data (package_data : PyJson) :
    Except PyErr (PyJson × Bool) :=
  match package_data with
  | .obj kvs =>
    let kvs1 := if dictContains kvs (pys "dependencies") then kvs
      else dictSet kvs (pys "dependencies") (.obj [])
    let kvs2 := if dictContains kvs1 (pys "devDependencies") then kvs1
      else dictSet kvs1 (pys "devDependencies") (.obj [])
    match dictGet kvs2 (pys "dependencies"),
          dictGet kvs2 (pys "devDependencies") with
    | some (.obj deps), some (.obj devDeps) =>
      let r1 := ensureDeps required_deps (deps, false)
      let r2 := ensureDeps required_dev_deps (devDeps, false)
      let kvs3 := dictSet (dictSet kvs2 (pys "dependencies") (.obj r1.1))
        (pys "devDependencies") (.obj r2.1)
      .ok (.obj kvs3, r1.2 || r2.2)
    | _, _ => .error .typeError
  | _ => .error .typeError

/-- `fix_package_json_issues` at the manifest level, with its `FixRecord`
entry: the message is appended exactly when something changed (lines
184-188). -/
def fix_package_json_issues_data (package_data : PyJson) :
    Except PyErr (PyJson × List PStr) :=
  (fix_package_json_data package_data).map (fun r =>
    (r.1, if r.2 then
      [pys "Added missing dependencies and devDependencies to package.json"]
    else []))

end Fixer

namespace Py

open PyStr

/-- Reading the key just written returns the written value. -/
theorem dictGet_dictSet_self (d : List (PStr × PyJson)) (k : PStr)
    (v : PyJson) : dictGet (dictSet d k v) k = some v := by
  induction d with
  | nil => simp [dictSet, dictGet]
  | cons e rest ih =>
    obtain ⟨k1, v1⟩ := e
    by_cases h : k1 = k
    · simp [dictSet, h, dictGet]
    · simp [dictSet, h, dictGet, ih]

/-- Writing one key leaves reads of another unchanged. -/
theorem dictGet_dictSet_ne (d : List (PStr × PyJson)) (k k' : PStr)
    (v : PyJson) (h : k' ≠ k) :
    dictGet (dictSet d k v) k' = dictGet d k' := by
  induction d with
  | nil => simp [dictSet, dictGet, Ne.symm h]
  | cons e rest ih =>
    obtain ⟨k1, v1⟩ := e
    by_cases h1 : k1 = k
    · subst h1
      simp [dictSet, dictGet, Ne.symm h]
    · by_cases h2 : k1 = k'
      · simp [dictSet, h1, dictGet, h2, h]
      · simp [dictSet, h1, dictGet, h2, ih]

/-- Writing back the value already stored changes nothing. -/
theorem dictSet_same (d : List (PStr × PyJson)) (k : PStr) (v : PyJson)
    (h : dictGet d k = some v) : dictSet d k v = d := by
  induction d with
  | nil => simp [dictGet] at h
  | cons e rest ih =>
    obtain ⟨k1, v1⟩ := e
    by_cases h1 : k1 = k
    · subst h1
      simp [dictGet] at h
      simp [dictSet, h]
    · simp [dictGet, h1] at h
      simp [dictSet, h1, ih h]

/-- The key just written is present. -/
theorem dictContains_dictSet_self (d : List (PStr × PyJson)) (k : PStr)
    (v : PyJson) : dictContains (dictSet d k v) k = true := by
  simp [dictContains, dictGet_dictSet_self]

/-- A present key stays present across a write. -/
theorem dictContains_dictSet_mono (d : List (PStr × PyJson)) (k k' : PStr)
    (v : PyJson) (h : dictContains d k' = true) :
    dictContains (dictSet d k v) k' = true := by
  by_cases hk : k' = k
  · subst hk
    exact dictContains_dictSet_self d k' v
  · simpa [dictContains, dictGet_dictSet_ne d k k' v hk] using h

end Py

namespace Fixer

open PyStr Py Step2

/-- The ensure-loop preserves every key already present. -/
theorem ensureDeps_contains_preserved (req : List (PStr × PStr)) :
    ∀ (acc : List (PStr × PyJson) × Bool) (k : PStr),
      dictContains acc.1 k = true →
      dictContains (ensureDeps req acc).1 k = true := by
  induction req with
  | nil => intro acc k h; exact h
  | cons kv rest ih =>
    intro acc k h
    unfold ensureDeps
    by_cases hc : dictContains acc.1 kv.1 = true
    · rw [if_pos hc]; exact ih acc k h
    · rw [if_neg hc]
      exact ih _ k (dictContains_dictSet_mono _ _ _ _ h)

/-- After the ensure-loop every required key is present. -/
theorem ensureDeps_contains_req (req : List (PStr × PStr)) :
    ∀ (acc : List (PStr × PyJson) × Bool) (kv : PStr × PStr), kv ∈ req →
      dictContains (ensureDeps req acc).1 kv.1 = true := by
  induction req with
  | nil => intro acc kv h; cases h
  | cons hd rest ih =>
    intro acc kv h
    rcases List.mem_cons.mp h with rfl | hmem
    · unfold ensureDeps
      by_cases hc : dictContains acc.1 kv.1 = true
      · rw [if_pos hc]
        exact ensureDeps_contains_preserved rest acc kv.1 hc
      · rw [if_neg hc]
        exact ensureDeps_contains_preserved rest _ kv.1
          (dictContains_dictSet_self _ _ _)
    · unfold ensureDeps
      by_cases hc : dictContains acc.1 hd.1 = true
      · rw [if_pos hc]; exact ih acc kv hmem
      · rw [if_neg hc]; exact ih _ kv hmem

/-- When every required key is already present, the ensure-loop is the
identity and reports no change. -/
theorem ensureDeps_noop (req : List (PStr × PStr)) :
    ∀ d : List (PStr × PyJson),
      (∀ kv ∈ req, dictContains d kv.1 = true) →
      ensureDeps req (d, false) = (d, false) := by
  induction req with
  | nil => intro d _; rfl
  | cons hd rest ih =>
    intro d h
    unfold ensureDeps
    rw [if_pos (h hd (List.mem_cons_self hd rest))]
    exact ih d (fun kv hkv => h kv (List.mem_cons_of_mem hd hkv))

/-- A manifest whose `dependencies`/`devDependencies` objects already hold
every required entry is a fixed point of the dependency-fix core. -/
theorem fix_data_fixed (E2 R1 R2 : List (PStr × PyJson))
    (hR1 : ∀ kv ∈ required_deps, dictContains R1 kv.1 = true)
    (hR2 : ∀ kv ∈ required_dev_deps, dictContains R2 kv.1 = true) :
    fix_package_json_data
      (.obj (dictSet (dictSet E2 (pys "dependencies") (.obj R1))
        (pys "devDependencies") (.obj R2)))
    = Except.ok (.obj (dictSet (dictSet E2 (pys "dependencies") (.obj R1))
        (pys "devDependencies") (.obj R2)), false) := by
  set K3 := dictSet (dictSet E2 (pys "dependencies") (.obj R1))
    (pys "devDependencies") (.obj R2) with hK3
  have hg2 : dictGet K3 (pys "devDependencies") = some (.obj R2) :=
    dictGet_dictSet_self _ _ _
  have hg1 : dictGet K3 (pys "dependencies") = some (.obj R1) := by
    rw [hK3, dictGet_dictSet_ne _ _ _ _ (by decide), dictGet_dictSet_self]
  have hc1 : dictContains K3 (pys "dependencies") = true := by
    simp [dictContains, hg1]
  have hc2 : dictContains K3 (pys "devDependencies") = true := by
    simp [dictContains, hg2]
  simp only [fix_package_json_data]
  rw [if_pos hc1, if_pos hc2, hg1, hg2]
  show Except.ok (PyJson.obj
      (dictSet (dictSet K3 (pys "dependencies")
          (.obj (ensureDeps required_deps (R1, false)).1))
        (pys "devDependencies")
        (.obj (ensureDeps required_dev_deps (R2, false)).1)),
      (ensureDeps required_deps (R1, false)).2
        || (ensureDeps required_dev_deps (R2, false)).2)
    = Except.ok (PyJson.obj K3, false)
  rw [ensureDeps_noop required_deps R1 hR1,
    ensureDeps_noop required_dev_deps R2 hR2]
  show Except.ok (PyJson.obj
      (dictSet (dictSet K3 (pys "dependencies") (.obj R1))
        (pys "devDependencies") (.obj R2)), false)
    = Except.ok (PyJson.obj K3, false)
  rw [dictSet_same _ _ _ hg1, dictSet_same _ _ _ hg2]

/-- A successful run of the dependency-fix core is a fixed point: the
second run changes nothing and reports `changed = false`. -/
theorem fix_data_idem (m m1 : PyJson) (c : Bool)
    (h : fix_package_json_data m = Except.ok (m1, c)) :
    fix_package_json_data m1 = Except.ok (m1, false) := by
  cases m with
  | null => simp [fix_package_json_data] at h
  | bool b => simp [fix_package_json_data] at h
  | int n => simp [fix_package_json_data] at h
  | str s => simp [fix_package_json_data] at h
  | arr xs => simp [fix_package_json_data] at h
  | obj kvs =>
    simp only [fix_package_json_data] at h
    split at h
    case h_1 deps devDeps hdeps hdev =>
      simp only [Except.ok.injEq, Prod.mk.injEq] at h
      obtain ⟨hm, hc⟩ := h
      subst hm
      exact fix_data_fixed _ _ _
        (fun kv hkv => ensureDeps_contains_req required_deps (deps, false) kv hkv)
        (fun kv hkv => ensureDeps_contains_req required_dev_deps (devDeps, false) kv hkv)
    case h_2 => simp at h

/-- Claim C7: the dependency-fix rule is idempotent.  If a run on a
well-formed manifest succeeds, a second run on its output changes nothing
and appends no new `FixRecord` entry (its fix list is empty). -/
theorem C7_fix_package_json_idempotent (m m1 : PyJson) (fx : List PStr)
    (h : fix_package_json_issues_data m = Except.ok (m1, fx)) :
    fix_package_json_issues_data m1 = Except.ok (m1, []) := by
  unfold fix_package_json_issues_data at h ⊢
  cases hfd : fix_package_json_data m with
  | error e => rw [hfd] at h; simp [Except.map] at h
  | ok r =>
    rw [hfd] at h
    obtain ⟨mm, c⟩ := r
    simp only [Except.map, Except.ok.injEq, Prod.mk.injEq] at h
    obtain ⟨hm, hfx⟩ := h
    subst hm
    rw [fix_data_idem m mm c hfd]
    rfl

/-- Concrete instantiation of `C7_fix_package_json_idempotent`: starting
from the empty manifest, the first run adds everything (one FixRecord
entry) and the second run is a no-op with an empty fix list. -/
theorem C7_fix_package_json_idempotent_witness :
    fix_package_json_issues_data
      (.obj [(pys "dependencies", .obj
        [(pys "next", .str (pys "^14.0.0")),
         (pys "react", .str (pys "^18.0.0")),
         (pys "react-dom", .str (pys "^18.0.0"))]),
       (pys "devDependencies", .obj
        [(pys "tailwindcss", .str (pys "^3.4.0")),
         (pys "postcss", .str (pys "^8.4.31")),
         (pys "autoprefixer", .str (pys "^10.4.16")),
         (pys "@types/node", .str (pys "^20.11.0")),
         (pys "@types/react", .str (pys "^18.2.47")),
         (pys "@types/react-dom", .str (pys "^18.2.18")),
         (pys "typescript", .str (pys "^5.3.3"))])])
    = Except.ok (.obj [(pys "dependencies", .obj
        [(pys "next", .str (pys "^14.0.0")),
         (pys "react", .str (pys "^18.0.0")),
         (pys "react-dom", .str (pys "^18.0.0"))]),
       (pys "devDependencies", .obj
        [(pys "tailwindcss", .str (pys "^3.4.0")),
         (pys "postcss", .str (pys "^8.4.31")),
         (pys "autoprefixer", .str (pys "^10.4.16")),
         (pys "@types/node", .str (pys "^20.11.0")),
         (pys "@types/react", .str (pys "^18.2.47")),
         (pys "@types/react-dom", .str (pys "^18.2.18")),
         (pys "typescript", .str (pys "^5.3.3"))])], []) :=
  C7_fix_package_json_idempotent (.obj [])
    (.obj [(pys "dependencies", .obj
        [(pys "next", .str (pys "^14.0.0")),
         (pys "react", .str (pys "^18.0.0")),
         (pys "react-dom", .str (pys "^18.0.0"))]),
       (pys "devDependencies", .obj
        [(pys "tailwindcss", .str (pys "^3.4.0")),
         (pys "postcss", .str (pys "^8.4.31")),
         (pys "autoprefixer", .str (pys "^10.4.16")),
         (pys "@types/node", .str (pys "^20.11.0")),
         (pys "@types/react", .str (pys "^18.2.47")),
         (pys "@types/react-dom", .str (pys "^18.2.18")),
         (pys "typescript", .str (pys "^5.3.3"))])])
    [pys "Added missing dependencies and devDependencies to package.json"]
    rfl

end Fixer

namespace Fixer

open PyStr Py Step2

/-- The `tailwind.config.js` text `fix_tailwind_config`
(automated_error_fixer.py, lines 190-216) writes when the file is
missing. -/
def tailwindConfigText : PStr :=
  pys "/** @type \x7bimport(\x27tailwindcss\x27).Config\x7d */\nmodule.exports = \x7b\n  content: [\n    \x27./pages/**/*.\x7bjs,ts,jsx,tsx,mdx\x7d\x27,\n    \x27./components/**/*.\x7bjs,ts,jsx,tsx,mdx\x7d\x27,\n    \x27./app/**/*.\x7bjs,ts,jsx,tsx,mdx\x7d\x27,\n  ],\n  theme: \x7b\n    extend: \x7b\x7d,\n  \x7d,\n  plugins: [],\n\x7d\n"

/-- The `postcss.config.js` text `fix_postcss_config` (lines 218-236)
writes when the file is missing. -/
def postcssConfigText : PStr :=
  pys "module.exports = \x7b\n  plugins: \x7b\n    tailwindcss: \x7b\x7d,\n    autoprefixer: \x7b\x7d,\n  \x7d,\n\x7d\n"

/-- The replacement `fix_image_hostname_errors` (lines 45-80) substitutes
for `const nextConfig = \x7b`. -/
def imagesReplacementText : PStr :=
  pys "const nextConfig = \x7b\n  images: \x7b\n    remotePatterns: [\n      \x7b\n        protocol: \x27https\x27,\n        hostname: \x27images.unsplash.com\x27,\n        port: \x27\x27,\n        pathname: \x27/**\x27,\n      \x7d,\n    ],\n  \x7d,"

/-- `fix_package_json_issues` over the project directory
(automated_error_fixer.py, lines 138-188): a missing `package.json` is a
no-op; `json.load` of malformed text raises `JSONDecodeError`; on a parsed
manifest the dict-level core runs, and the file is rewritten
(`json.dump`, `indent=2`) with a `FixRecord` entry exactly when something
changed. -/
def fix_package_json_issues (fs : FileMap) :
    Except PyErr (FileMap × List PStr) :=
  match getFile fs (pys "package.json") with
  | none => .ok (fs, [])
  | some content =>
    match pyJsonParse content with
    | none => .error .jsonDecode
    | some package_data =>
      match fix_package_json_data package_data with
      | .error e => .error e
      | .ok (m1, changed) =>
        if changed then
          .ok (setFile fs (pys "package.json") (pyJsonDumpIndent2 m1),
            [pys "Added missing dependencies and devDependencies to package.json"])
        else .ok (fs, [])

/-- `fix_tailwind_config` (lines 190-216): create the config when
missing. -/
def fix_tailwind_config (fs : FileMap) :
    Except PyErr (FileMap × List PStr) :=
  match getFile fs (pys "tailwind.config.js") with
  | some _ => .ok (fs, [])
  | none => .ok (setFile fs (pys "tailwind.config.js") tailwindConfigText,
      [pys "Created missing tailwind.config.js"])

/-- `fix_postcss_config` (lines 218-236): create the config when
missing. -/
def fix_postcss_config (fs : FileMap) :
    Except PyErr (FileMap × List PStr) :=
  match getFile fs (pys "postcss.config.js") with
  | some _ => .ok (fs, [])
  | none => .ok (setFile fs (pys "postcss.config.js") postcssConfigText,
      [pys "Created missing postcss.config.js"])

/-- `get_all_file_contents` (lines 260-277): the concatenation (each
followed by a newline) of every `.tsx`/`.ts`/`.js`/`.jsx` file outside
`node_modules`, `.next` and `.git`, in directory order (modelled as the
map's order). -/
def get_all_file_contents (fs : FileMap) : PStr :=
  (fs.filter (fun e =>
    ((pys ".tsx").isSuffixOf e.1 || (pys ".ts").isSuffixOf e.1
      || (pys ".js").isSuffixOf e.1 || (pys ".jsx").isSuffixOf e.1)
    && !((splitOnSlash e.1).contains (pys "node_modules")
      || (splitOnSlash e.1).contains (pys ".next")
      || (splitOnSlash e.1).contains (pys ".git")))).foldl
    (fun acc e => acc ++ e.2 ++ pys "\n") []

/-- `fix_image_hostname_errors` (lines 45-80): a missing `next.config.js`
is a no-op; otherwise, when no `images:` key is present and some project
file mentions `unsplash.com`, the `const nextConfig = \x7b` opener (every
occurrence, Python `str.replace`) is widened with the Unsplash
`remotePatterns` block and a `FixRecord` entry is appended. -/
def fix_image_hostname_errors (fs : FileMap) :
    Except PyErr (FileMap × List PStr) :=
  match getFile fs (pys "next.config.js") with
  | none => .ok (fs, [])
  | some content =>
    if !containsSub content (pys "images:")
        && containsSub (get_all_file_contents fs) (pys "unsplash.com") then
      if containsSub content (pys "const nextConfig = \x7b") then
        .ok (setFile fs (pys "next.config.js")
          (replaceAll content (pys "const nextConfig = \x7b")
            imagesReplacementText),
          [pys "Fixed Next.js image hostname configuration"])
      else .ok (fs, [])
    else .ok (fs, [])

/-- `fix_turbopack_errors` (lines 82-102): a missing `package.json` is a
no-op; malformed JSON raises; with a `scripts.dev` string containing
`--turbopack`, the ` --turbopack` text is removed and the manifest
rewritten.  Non-object/non-string shapes that would make Python's `in` or
indexing raise are modelled as `TypeError`. -/
def fix_turbopack_errors (fs : FileMap) :
    Except PyErr (FileMap × List PStr) :=
  match getFile fs (pys "package.json") with
  | none => .ok (fs, [])
  | some content =>
    match pyJsonParse content with
    | none => .error .jsonDecode
    | some (.obj kvs) =>
      match dictGet kvs (pys "scripts") with
      | none => .ok (fs, [])
      | some (.obj sc) =>
        match dictGet sc (pys "dev") with
        | none => .ok (fs, [])
        | some (.str dev_script) =>
          if containsSub dev_script (pys "--turbopack") then
            let newdev := replaceAll dev_script (pys " --turbopack") []
            let kvs1 := dictSet kvs (pys "scripts")
              (.obj (dictSet sc (pys "dev") (.str newdev)))
            .ok (setFile fs (pys "package.json")
              (pyJsonDumpIndent2 (.obj kvs1)),
              [pys "Removed incompatible --turbopack flag"])
          else .ok (fs, [])
        | some _ => .error .typeError
      | some _ => .error .typeError
    | some _ => .error .typeError

/-- Match, at the start of `s`, the regex `\s*onLikeChange=\\x7b[^\x7d]+\\x7d`
of `fix_client_component_in_file` (line 119), returning the remainder
after the match. -/
def matchOnLikeAt (s : PStr) : Option PStr :=
  let ws := s.takeWhile isPySpace
  match matchLit (pys "onLikeChange=\x7b") (s.drop ws.length) with
  | some r2 =>
    let body := r2.takeWhile (fun c => c ≠ '\x7d')
    if body = [] then none
    else
      match r2.drop body.length with
      | '\x7d' :: rest => some rest
      | _ => none
  | none => none

/-- `re.sub(r'\s*onLikeChange=\x7b[^\x7d]+\x7d', '', line)`: remove every
non-overlapping leftmost match. -/
def subOnLike : Nat → PStr → PStr
  | 0, s => s
  | fuel + 1, s =>
    match matchOnLikeAt s with
    | some rest => subOnLike fuel rest
    | none =>
      match s with
      | [] => []
      | c :: rest => c :: subOnLike fuel rest

/-- `fix_client_component_in_file` (automated_error_fixer.py, lines
104-136) on one file's content: when the file mentions `onLikeChange=`
and lacks `\x27use client\x27`, the offending prop is stripped from each line
mentioning it; returns the new content and whether it changed. -/
def fix_client_component_in_file (content : PStr) : PStr × Bool :=
  if containsSub content (pys "onLikeChange=")
      && !containsSub content (pys "\x27use client\x27") then
    let lines := content.splitOn '\n'
    let lines1 := lines.map (fun l =>
      if containsSub l (pys "onLikeChange=") then subOnLike (l.length + 1) l
      else l)
    let content1 := List.intercalate (pys "\n") lines1
    (content1, decide (content1 ≠ content))
  else (content, false)

/-- `fix_client_component_errors` (lines 104-110): apply the per-file fix
to every `.tsx` file, recording one `FixRecord` entry per changed file. -/
def fix_client_component_errors (fs : FileMap) : FileMap × List PStr :=
  fs.foldl (fun acc e =>
    if (pys ".tsx").isSuffixOf e.1 then
      let r := fix_client_component_in_file e.2
      if r.2 then
        (setFile acc.1 e.1 r.1,
         acc.2 ++ [pys "Fixed Client Component boundaries in " ++ e.1])
      else acc
    else acc) (fs, [])

/-- `detect_and_fix_all_errors` (automated_error_fixer.py, lines 21-43):
the six rules run in order with no exception handling, so an exception in
an earlier rule propagates and the remaining rules never run. -/
def detect_and_fix_all_errors (fs : FileMap) :
    Except PyErr (FileMap × List PStr) :=
  match fix_package_json_issues fs with
  | .error e => .error e
  | .ok (fs1, x1) =>
    match fix_tailwind_config fs1 with
    | .error e => .error e
    | .ok (fs2, x2) =>
      match fix_postcss_config fs2 with
      | .error e => .error e
      | .ok (fs3, x3) =>
        match fix_image_hostname_errors fs3 with
        | .error e => .error e
        | .ok (fs4, x4) =>
          match fix_turbopack_errors fs4 with
          | .error e => .error e
          | .ok (fs5, x5) =>
            let r6 := fix_client_component_errors fs5
            .ok (r6.1, x1 ++ x2 ++ x3 ++ x4 ++ x5 ++ r6.2)

end Fixer

namespace Fixer

open PyStr Py Step2

/-- Claim C8 fails on the code: `detect_and_fix_all_errors` has no
exception handling, so a malformed `package.json` makes the first rule
raise `JSONDecodeError` and the whole pass aborts — the remaining five
rules never run (no tailwind/postcss config is ever created, no fix list
is produced). -/
theorem C8_counterexample :
    detect_and_fix_all_errors [(pys "package.json", pys "not json")]
      = Except.error PyErr.jsonDecode := by
  rfl

/-- Claim C8 amended: a missing target file is indeed "rule not
applicable" (a no-op, not an error) for each file-reading rule; but
malformed JSON in the manifest is fatal to the whole pass, not to the one
rule — the exception propagates out of `detect_and_fix_all_errors` and the
remaining rules are never run. -/
theorem C8_amended (fsA fsB fsC : FileMap) (content : PStr)
    (hA : getFile fsA (pys "package.json") = none)
    (hB : getFile fsB (pys "next.config.js") = none)
    (hC : getFile fsC (pys "package.json") = some content)
    (hC2 : pyJsonParse content = none) :
    fix_package_json_issues fsA = Except.ok (fsA, []) ∧
    fix_turbopack_errors fsA = Except.ok (fsA, []) ∧
    fix_image_hostname_errors fsB = Except.ok (fsB, []) ∧
    detect_and_fix_all_errors fsC = Except.error PyErr.jsonDecode := by
  refine ⟨?_, ?_, ?_, ?_⟩
  · simp [fix_package_json_issues, hA]
  · simp [fix_turbopack_errors, hA]
  · simp [fix_image_hostname_errors, hB]
  · simp [detect_and_fix_all_errors, fix_package_json_issues, hC, hC2]

/-- Concrete instantiation of `C8_amended`: the empty project is a no-op
for the file-reading rules, and a project whose `package.json` is the text
`not json` aborts the whole pass with `JSONDecodeError`. -/
theorem C8_amended_witness :
    fix_package_json_issues [] = Except.ok ([], []) ∧
    fix_turbopack_errors [] = Except.ok ([], []) ∧
    fix_image_hostname_errors [] = Except.ok ([], []) ∧
    detect_and_fix_all_errors [(pys "package.json", pys "not json")]
      = Except.error PyErr.jsonDecode :=
  C8_amended [] [] [(pys "package.json", pys "not json")] (pys "not json")
    rfl rfl rfl rfl

end Fixer

namespace DevServer

/-- Embedding of `FinalPixelPilotWorkflow.test_dev_server`
(final_working_workflow.py, lines 256-280).  The subprocess and the fixed
3-second sleep are effectful; `exited_during_grace` carries the one bit the
code inspects afterwards — whether `process.returncode is None` at the end
of the grace period.  Returns `(result, terminate_called)`: a live process
is terminated and reported alive (`true`), an exited process is reported
dead (`false`) with no `terminate()` call. -/
def final_test_dev_server (exited_during_grace : Bool) : Bool × Bool :=
  if exited_during_grace then (false, false) else (true, true)

/-- The outcome of agent2's `test_dev_server`: the returned message and
whether `process.terminate()` ran. -/
structure Agent2Result where
  message : String
  terminate_called : Bool
deriving DecidableEq, Repr

/-- The success message of agent2's `test_dev_server`
(main files/agent2_project_deployment.py, line 87). -/
def agent2_success_message (project_name : String) : String :=
  "SUCCESS: Development server started successfully for \x27"
    ++ project_name ++ "\x27"

/-- Embedding of `test_dev_server`
(main files/agent2_project_deployment.py, lines 64-91): after the
existence check it starts the process, sleeps 5 seconds, terminates
unconditionally (a no-op on an already-exited process) and returns the
SUCCESS message — the process's exit status is never consulted. -/
def agent2_test_dev_server (project_name : String) (project_exists : Bool)
    (exited_during_grace : Bool) : Agent2Result :=
  if !project_exists then
    ⟨"FAILED: Project directory \x27" ++ project_name ++ "\x27 not found",
      false⟩
  else ⟨agent2_success_message project_name, true⟩

/-- Claim C9 fails on the code: for a dev-server process that has exited
by the end of the grace period, agent2's `test_dev_server` still reports
SUCCESS (it never checks liveness), while the final workflow's version —
the behaviour the claim describes — reports failure on the same
scenario. -/
theorem C9_counterexample :
    (agent2_test_dev_server "pixelpilot-v0-test" true true).message
      = agent2_success_message "pixelpilot-v0-test" ∧
    (final_test_dev_server true).1 = false :=
  ⟨rfl, rfl⟩

/-- Claim C9 amended: in `FinalPixelPilotWorkflow.test_dev_server` an
exited process reports failure and a live one success, and the process is
terminated only in the still-alive case (an exited process needs no
termination); agent2's `test_dev_server` never consults liveness — when
the directory exists and the process started, it terminates the process
and reports SUCCESS whether or not the process exited during the grace
period. -/
theorem C9_amended (e : Bool) (name : String) :
    (final_test_dev_server e).1 = !e ∧
    (final_test_dev_server e).2 = !e ∧
    (agent2_test_dev_server name true e).message
      = agent2_success_message name ∧
    (agent2_test_dev_server name true e).terminate_called = true := by
  cases e <;> exact ⟨rfl, rfl, rfl, rfl⟩

end DevServer
